import Mathlib

/-!
Verification of the rumble scan-normalization core against its source.

Shallow embedding conventions:
* Go strings that carry JSON documents are modelled by the JSON value the
  text denotes (`Option Json`, with `none` for the empty string).  Go's
  `json.Compact` only strips inter-token whitespace, so the minified text
  denotes the same JSON value as the original report bytes; both the write
  path and the query path act only on that denoted value.
* Go runtime panics (slice index out of range) and `json.Unmarshal` errors
  are made explicit through the `Failure` inductive; a function that can
  panic or error returns `Except Failure _`.
* Go `json.Unmarshal` matches an object member to a struct field by the
  field's name or tag, preferring an exact match and otherwise accepting an
  ASCII case-insensitive match; missing members leave the field unchanged,
  `null` leaves non-pointer scalars unchanged and nils pointers/slices, and
  a type mismatch is an error.
-/

/-- JSON values, the denotation of the scanner report bytes. -/
inductive Json where
  | null : Json
  | bool (b : Bool) : Json
  | num (n : Int) : Json
  | str (s : String) : Json
  | arr (elems : List Json) : Json
  | obj (fields : List (String × Json)) : Json

/-- ASCII lower-casing of one character (the object keys involved are ASCII). -/
def asciiLowerChar (c : Char) : Char :=
  if 'A' ≤ c ∧ c ≤ 'Z' then Char.ofNat (c.toNat + 32) else c

/-- ASCII lower-casing of a string. -/
def asciiLower (s : String) : String :=
  ⟨s.data.map asciiLowerChar⟩

/-- Exact-key lookup in an object's field list (first occurrence wins). -/
def lookupKey : List (String × Json) → String → Option Json
  | [], _ => none
  | (k, v) :: rest, t => if k = t then some v else lookupKey rest t

/-- Case-insensitive key lookup in an object's field list. -/
def lookupKeyCI : List (String × Json) → String → Option Json
  | [], _ => none
  | (k, v) :: rest, t => if asciiLower k = asciiLower t then some v else lookupKeyCI rest t

/-- Member lookup the way `json.Unmarshal` resolves a struct field name:
prefer an exact key match, otherwise accept a case-insensitive match. -/
def Json.lookupCI (j : Json) (t : String) : Option Json :=
  match j with
  | .obj kvs =>
    match lookupKey kvs t with
    | some v => some v
    | none => lookupKeyCI kvs t
  | _ => none

/-- Top-level member names of a JSON object. -/
def Json.topKeys : Json → List String
  | .obj kvs => kvs.map (fun p => p.1)
  | _ => []

/-- Failure modes of the embedded code.  `panicIndexOutOfRange` is a Go
runtime panic (an unrecoverable crash of the process, nothing is returned to
the caller); `decodeError` is an error value produced by `json.Unmarshal`;
`digestMissingError` is modelled from the spec only (§7 names a
`DigestMissingError`) — no code under src/ ever produces it. -/
inductive Failure where
  | panicIndexOutOfRange : Failure
  | digestMissingError : Failure
  | decodeError (field : String) : Failure
deriving DecidableEq, Repr

/-- Decode a JSON member into a Go `string` field whose current value is
`cur` (missing member and `null` leave the field unchanged). -/
def decStrField (cur : String) : Option Json → Except Failure String
  | none => .ok cur
  | some .null => .ok cur
  | some (.str s) => .ok s
  | some _ => .error (.decodeError "string")

/-- Decode a JSON member into a Go `int` field whose current value is `cur`. -/
def decIntField (cur : Int) : Option Json → Except Failure Int
  | none => .ok cur
  | some .null => .ok cur
  | some (.num n) => .ok n
  | some _ => .error (.decodeError "int")

/-- Decode one element of a JSON string array. -/
def decodeJsonStr : Json → Except Failure String
  | .null => .ok ""
  | .str s => .ok s
  | _ => .error (.decodeError "string")

/-- Decode every element of a JSON array with `f`. -/
def decodeList (f : Json → Except Failure α) : List Json → Except Failure (List α)
  | [] => .ok []
  | j :: js => do
    let a ← f j
    let as ← decodeList f js
    .ok (a :: as)

/-- Decode a JSON member into a Go `[]string` field. -/
def decStrListField (cur : List String) : Option Json → Except Failure (List String)
  | none => .ok cur
  | some .null => .ok []
  | some (.arr xs) => decodeList decodeJsonStr xs
  | some _ => .error (.decodeError "[]string")

/-! ### pkg/types structures used by the writer (shapes as exercised by src/unnamed/part_000) -/

/-- grype `vulnerability.fix` object: the candidate fixed-in versions. -/
structure GrypeFix where
  versions : List String := []
deriving Repr, DecidableEq

/-- grype per-match `vulnerability` object. -/
structure GrypeVulnerability where
  id : String := ""
  dataSource : String := ""
  severity : String := ""
  fix : GrypeFix := {}
deriving Repr, DecidableEq

/-- grype per-match `artifact` object (the affected package). -/
structure GrypeArtifact where
  name : String := ""
  version : String := ""
  type : String := ""
deriving Repr, DecidableEq

/-- One entry of a grype report's `matches` array. -/
structure GrypeMatch where
  vulnerability : GrypeVulnerability := {}
  artifact : GrypeArtifact := {}
deriving Repr, DecidableEq

/-- grype `descriptor.db` object. -/
structure GrypeDb where
  checksum : String := ""
deriving Repr, DecidableEq

/-- grype `descriptor` object. -/
structure GrypeDescriptor where
  version : String := ""
  db : GrypeDb := {}
deriving Repr, DecidableEq

/-- grype `source.target` object. -/
structure GrypeTarget where
  repoDigests : List String := []
deriving Repr, DecidableEq

/-- grype `source` object. -/
structure GrypeSource where
  target : GrypeTarget := {}
deriving Repr, DecidableEq

/-- Parsed grype JSON report (`types.GrypeScanOutput`), with the fields the
source reads: `Matches`, `Source.Target.RepoDigests`, `Descriptor.Version`,
`Descriptor.Db.Checksum`.  The source field `Matches` is spelled `matchList`
because `matches` is reserved in Lean. -/
structure GrypeScanOutput where
  matchList : List GrypeMatch := []
  source : GrypeSource := {}
  descriptor : GrypeDescriptor := {}
deriving Repr, DecidableEq

/-- One trivy vulnerability entry (the source reads only `Severity`). -/
structure TrivyVulnerability where
  severity : String := ""
deriving Repr, DecidableEq

/-- One entry of a trivy report's `Results` array. -/
structure TrivyResult where
  vulnerabilities : List TrivyVulnerability := []
deriving Repr, DecidableEq

/-- trivy `Metadata` object. -/
structure TrivyMetadata where
  repoDigests : List String := []
deriving Repr, DecidableEq

/-- Parsed trivy JSON report (`types.TrivyScanOutput`), with the fields the
source reads: `Metadata.RepoDigests`, `Results[].Vulnerabilities[].Severity`. -/
structure TrivyScanOutput where
  metadata : TrivyMetadata := {}
  results : List TrivyResult := []
deriving Repr, DecidableEq

/-- trivy version-query `VulnerabilityDB` object. -/
structure TrivyDB where
  updatedAt : String := ""
deriving Repr, DecidableEq

/-- Parsed output of `trivy --version -f json` (`types.TrivyVersionOutput`). -/
structure TrivyVersionOutput where
  version : String := ""
  vulnerabilityDB : TrivyDB := {}
deriving Repr, DecidableEq

/-- Canonical scan summary (`types.ImageScanSummary`), with the fields the
source assigns.  Go zero values are the field defaults.  `rawGrypeJSON`
holds the denotation of the `RawGrypeJSON` string column (`none` = empty). -/
structure ImageScanSummary where
  id : String := ""
  image : String := ""
  digest : String := ""
  scanner : String := ""
  scannerVersion : String := ""
  scannerDbVersion : String := ""
  time : String := ""
  created : String := ""
  lowCveCount : Nat := 0
  medCveCount : Nat := 0
  highCveCount : Nat := 0
  critCveCount : Nat := 0
  negligibleCveCount : Nat := 0
  unknownCveCount : Nat := 0
  totCveCount : Nat := 0
  rawGrypeJSON : Option Json := none
  success : Bool := false

/-- Split a character list at every occurrence of `c` (Go `strings.Split`
semantics: splitting the empty string yields one empty field). -/
def splitChar (c : Char) : List Char → List (List Char)
  | [] => [[]]
  | x :: xs =>
    let r := splitChar c xs
    if x = c then [] :: r
    else
      match r with
      | [] => [[x]]
      | h :: t => (x :: h) :: t

/-- Go `strings.Split(s, sep)` for the one-character separator used by the
source (`"@"`), written by structural recursion over the character list. -/
def stringSplit (s : String) (c : Char) : List String :=
  (splitChar c s.data).map (fun l => { data := l })

/-! ### The normalizers (src/unnamed/part_000, `grypeOutputToSummary` and
`trivyOutputToSummary`).  The `fmt.Printf("WARNING: ...")` side effect is
modelled as an accumulated list of warning lines. -/

/-- One iteration of the severity switch in `grypeOutputToSummary`. -/
def grypeBump (acc : ImageScanSummary × List String) (m : GrypeMatch) :
    ImageScanSummary × List String :=
  let s := acc.1
  let ws := acc.2
  let sev := m.vulnerability.severity
  if sev = "Low" then ({ s with lowCveCount := s.lowCveCount + 1 }, ws)
  else if sev = "Medium" then ({ s with medCveCount := s.medCveCount + 1 }, ws)
  else if sev = "High" then ({ s with highCveCount := s.highCveCount + 1 }, ws)
  else if sev = "Critical" then ({ s with critCveCount := s.critCveCount + 1 }, ws)
  else if sev = "Negligible" then ({ s with negligibleCveCount := s.negligibleCveCount + 1 }, ws)
  else if sev = "Unknown" then ({ s with unknownCveCount := s.unknownCveCount + 1 }, ws)
  else (s, ws ++ ["WARNING: unknown severity: " ++ sev])

/-- Severity strings with a case in `grypeOutputToSummary`'s switch. -/
def recognizedGrype (sev : String) : Bool :=
  sev == "Low" || sev == "Medium" || sev == "High" || sev == "Critical" ||
    sev == "Negligible" || sev == "Unknown"

/-- `grypeOutputToSummary` (src/unnamed/part_000:319-354).  The digest line
`strings.Split(output.Source.Target.RepoDigests[0], "@")[1]` panics when the
repo-digest list is empty or when its first entry has no `@`. -/
def grypeOutputToSummary (image scanTime : String) (output : GrypeScanOutput) :
    Except Failure (ImageScanSummary × List String) :=
  let s0 : ImageScanSummary := { image := image, scanner := "grype", time := scanTime }
  let s1 := { s0 with
    success := true
    scannerVersion := output.descriptor.version
    scannerDbVersion := output.descriptor.db.checksum }
  match output.source.target.repoDigests[0]? with
  | none => .error .panicIndexOutOfRange
  | some d =>
    match (stringSplit d '@')[1]? with
    | none => .error .panicIndexOutOfRange
    | some dig =>
      let s2 := { s1 with digest := dig, totCveCount := output.matchList.length }
      .ok (output.matchList.foldl grypeBump (s2, []))

/-- One iteration of the severity switch in `trivyOutputToSummary`; the
accumulator carries the running `totalCveCount` variable. -/
def trivyBump (acc : Nat × ImageScanSummary × List String) (v : TrivyVulnerability) :
    Nat × ImageScanSummary × List String :=
  let total := acc.1
  let s := acc.2.1
  let ws := acc.2.2
  let sev := v.severity
  if sev = "LOW" then (total + 1, { s with lowCveCount := s.lowCveCount + 1 }, ws)
  else if sev = "MEDIUM" then (total + 1, { s with medCveCount := s.medCveCount + 1 }, ws)
  else if sev = "HIGH" then (total + 1, { s with highCveCount := s.highCveCount + 1 }, ws)
  else if sev = "CRITICAL" then (total + 1, { s with critCveCount := s.critCveCount + 1 }, ws)
  else if sev = "UNKNOWN" then (total + 1, { s with unknownCveCount := s.unknownCveCount + 1 }, ws)
  else (total + 1, s, ws ++ ["WARNING: unknown severity: " ++ sev])

/-- Severity strings with a case in `trivyOutputToSummary`'s switch. -/
def recognizedTrivy (sev : String) : Bool :=
  sev == "LOW" || sev == "MEDIUM" || sev == "HIGH" || sev == "CRITICAL" || sev == "UNKNOWN"

/-- `trivyOutputToSummary` (src/unnamed/part_000:356-394).  Same panic
behaviour on `output.Metadata.RepoDigests[0]` as the grype normalizer. -/
def trivyOutputToSummary (image scanTime : String) (output : TrivyScanOutput)
    (trivyVersion : TrivyVersionOutput) : Except Failure (ImageScanSummary × List String) :=
  let s0 : ImageScanSummary :=
    { image := image, scanner := "trivy", time := scanTime, negligibleCveCount := 0 }
  let s1 := { s0 with
    success := true
    scannerVersion := trivyVersion.version
    scannerDbVersion := trivyVersion.vulnerabilityDB.updatedAt }
  match output.metadata.repoDigests[0]? with
  | none => .error .panicIndexOutOfRange
  | some d =>
    match (stringSplit d '@')[1]? with
    | none => .error .panicIndexOutOfRange
    | some dig =>
      let acc := output.results.foldl
        (fun a res => res.vulnerabilities.foldl trivyBump a) (0, { s1 with digest := dig }, [])
      .ok ({ acc.2.1 with totCveCount := acc.1 }, acc.2.2)

/-! ### The scan-report parsers: `json.Unmarshal` of the raw report into the
pkg/types structures.  The struct tags live in pkg/types, which is not under
src/; the member names below are the scanner schemas' names as exercised by
the source (grype: `matches`, `source.target.repoDigests`,
`descriptor.version`, `descriptor.db.checksum`, per-match `vulnerability`
and `artifact`; trivy: `Metadata.RepoDigests`,
`Results[].Vulnerabilities[].Severity`). -/

/-- Decode a grype `fix` member. -/
def decodeGrypeFix (cur : GrypeFix) : Option Json → Except Failure GrypeFix
  | none => .ok cur
  | some .null => .ok cur
  | some (.obj kvs) => do
    let j := Json.obj kvs
    let versions ← decStrListField cur.versions (j.lookupCI "versions")
    .ok { versions := versions }
  | some _ => .error (.decodeError "fix")

/-- Decode a grype `vulnerability` member. -/
def decodeGrypeVulnerability (cur : GrypeVulnerability) :
    Option Json → Except Failure GrypeVulnerability
  | none => .ok cur
  | some .null => .ok cur
  | some (.obj kvs) => do
    let j := Json.obj kvs
    let id ← decStrField cur.id (j.lookupCI "id")
    let dataSource ← decStrField cur.dataSource (j.lookupCI "dataSource")
    let severity ← decStrField cur.severity (j.lookupCI "severity")
    let fix ← decodeGrypeFix cur.fix (j.lookupCI "fix")
    .ok { id := id, dataSource := dataSource, severity := severity, fix := fix }
  | some _ => .error (.decodeError "vulnerability")

/-- Decode a grype `artifact` member. -/
def decodeGrypeArtifact (cur : GrypeArtifact) : Option Json → Except Failure GrypeArtifact
  | none => .ok cur
  | some .null => .ok cur
  | some (.obj kvs) => do
    let j := Json.obj kvs
    let name ← decStrField cur.name (j.lookupCI "name")
    let version ← decStrField cur.version (j.lookupCI "version")
    let type ← decStrField cur.type (j.lookupCI "type")
    .ok { name := name, version := version, type := type }
  | some _ => .error (.decodeError "artifact")

/-- Decode one entry of the grype `matches` array. -/
def decodeGrypeMatch : Json → Except Failure GrypeMatch
  | .null => .ok {}
  | .obj kvs => do
    let j := Json.obj kvs
    let vulnerability ← decodeGrypeVulnerability {} (j.lookupCI "vulnerability")
    let artifact ← decodeGrypeArtifact {} (j.lookupCI "artifact")
    .ok { vulnerability := vulnerability, artifact := artifact }
  | _ => .error (.decodeError "match")

/-- Decode the grype `matches` member. -/
def decodeGrypeMatchList (cur : List GrypeMatch) :
    Option Json → Except Failure (List GrypeMatch)
  | none => .ok cur
  | some .null => .ok []
  | some (.arr xs) => decodeList decodeGrypeMatch xs
  | some _ => .error (.decodeError "matches")

/-- Decode the grype `source` member. -/
def decodeGrypeSource (cur : GrypeSource) : Option Json → Except Failure GrypeSource
  | none => .ok cur
  | some .null => .ok cur
  | some (.obj kvs) => do
    let j := Json.obj kvs
    match j.lookupCI "target" with
    | none => .ok cur
    | some .null => .ok cur
    | some (.obj tkvs) => do
      let t := Json.obj tkvs
      let repoDigests ← decStrListField cur.target.repoDigests (t.lookupCI "repoDigests")
      .ok { target := { repoDigests := repoDigests } }
    | some _ => .error (.decodeError "target")
  | some _ => .error (.decodeError "source")

/-- Decode the grype `descriptor` member. -/
def decodeGrypeDescriptor (cur : GrypeDescriptor) :
    Option Json → Except Failure GrypeDescriptor
  | none => .ok cur
  | some .null => .ok cur
  | some (.obj kvs) => do
    let j := Json.obj kvs
    let version ← decStrField cur.version (j.lookupCI "version")
    match j.lookupCI "db" with
    | none => .ok { cur with version := version }
    | some .null => .ok { cur with version := version }
    | some (.obj dkvs) => do
      let dj := Json.obj dkvs
      let checksum ← decStrField cur.db.checksum (dj.lookupCI "checksum")
      .ok { version := version, db := { checksum := checksum } }
    | some _ => .error (.decodeError "db")
  | some _ => .error (.decodeError "descriptor")

/-- Parse a grype JSON report into `GrypeScanOutput`
(`json.Unmarshal(b, &output)`, src/unnamed/part_000:301-304). -/
def decodeGrypeScanOutput : Json → Except Failure GrypeScanOutput
  | .null => .ok {}
  | .obj kvs => do
    let j := Json.obj kvs
    let matchList ← decodeGrypeMatchList [] (j.lookupCI "matches")
    let source ← decodeGrypeSource {} (j.lookupCI "source")
    let descriptor ← decodeGrypeDescriptor {} (j.lookupCI "descriptor")
    .ok { matchList := matchList, source := source, descriptor := descriptor }
  | _ => .error (.decodeError "GrypeScanOutput")

/-- Decode one trivy vulnerability entry. -/
def decodeTrivyVulnerability : Json → Except Failure TrivyVulnerability
  | .null => .ok {}
  | .obj kvs => do
    let j := Json.obj kvs
    let severity ← decStrField "" (j.lookupCI "Severity")
    .ok { severity := severity }
  | _ => .error (.decodeError "Vulnerability")

/-- Decode one entry of the trivy `Results` array. -/
def decodeTrivyResult : Json → Except Failure TrivyResult
  | .null => .ok {}
  | .obj kvs => do
    let j := Json.obj kvs
    match j.lookupCI "Vulnerabilities" with
    | none => .ok {}
    | some .null => .ok {}
    | some (.arr xs) => do
      let vs ← decodeList decodeTrivyVulnerability xs
      .ok { vulnerabilities := vs }
    | some _ => .error (.decodeError "Vulnerabilities")
  | _ => .error (.decodeError "Result")

/-- Parse a trivy JSON report into `TrivyScanOutput`
(`json.Unmarshal(b, &output)`, src/unnamed/part_000:263-266). -/
def decodeTrivyScanOutput : Json → Except Failure TrivyScanOutput
  | .null => .ok {}
  | .obj kvs => do
    let j := Json.obj kvs
    let metadata ←
      match j.lookupCI "Metadata" with
      | none => pure ({} : TrivyMetadata)
      | some .null => pure ({} : TrivyMetadata)
      | some (.obj mkvs) => do
        let mj := Json.obj mkvs
        let repoDigests ← decStrListField [] (mj.lookupCI "RepoDigests")
        pure { repoDigests := repoDigests }
      | some _ => .error (.decodeError "Metadata")
    let results ←
      match j.lookupCI "Results" with
      | none => pure ([] : List TrivyResult)
      | some .null => pure ([] : List TrivyResult)
      | some (.arr xs) => decodeList decodeTrivyResult xs
      | some _ => .error (.decodeError "Results")
    .ok { metadata := metadata, results := results }
  | _ => .error (.decodeError "TrivyScanOutput")

/-- The summary-producing JSON branch of `scanImageGrype`
(src/unnamed/part_000:300-316): parse the report, normalize, then inject the
minified raw report into `RawGrypeJSON`.  The report bytes are modelled by
the JSON value `j` they denote; `json.Compact` preserves that value. -/
def scanImageGrype (image scanTime : String) (j : Json) :
    Except Failure (ImageScanSummary × List String) := do
  let output ← decodeGrypeScanOutput j
  let (s, ws) ← grypeOutputToSummary image scanTime output
  .ok ({ s with rawGrypeJSON := some j }, ws)

/-- The summary-producing JSON branch of `scanImageTrivy`
(src/unnamed/part_000:262-270): parse the report and normalize.  Unlike the
grype branch, no raw report is injected into the summary. -/
def scanImageTrivy (image scanTime : String) (trivyVersion : TrivyVersionOutput)
    (j : Json) : Except Failure (ImageScanSummary × List String) := do
  let output ← decodeTrivyScanOutput j
  trivyOutputToSummary image scanTime output trivyVersion

/-- One denormalized vulnerability row, with the fields the writer prints
(src/unnamed/part_000:89-92): Name, Installed, FixedIn, Vulnerability, Type,
ID, plus the spec's severity/dataSource/scanID fields (§3). -/
structure Vuln where
  id : String := ""
  scanId : String := ""
  vulnerability : String := ""
  datasource : String := ""
  name : String := ""
  installed : String := ""
  fixedIn : String := ""
  type : String := ""
  severity : String := ""
deriving Repr, DecidableEq

/-- Modelled from the spec: `ImageScanSummary.ExtractVulns` lives in
pkg/types, which is not under src/.  Per §4.3 and §3 it re-parses the
embedded raw report and copies, per match, the CVE ID, data source,
severity (raw string), package name, installed version, fixed-in version
(empty when no fix exists) and artifact type; an empty raw column yields an
empty list and a failed re-parse is an error. -/
def ImageScanSummary.extractVulns (s : ImageScanSummary) : Except Failure (List Vuln) :=
  match s.rawGrypeJSON with
  | none => .ok []
  | some j => do
    let output ← decodeGrypeScanOutput j
    .ok (output.matchList.map (fun m =>
      { scanId := s.id
        vulnerability := m.vulnerability.id
        datasource := m.vulnerability.dataSource
        severity := m.vulnerability.severity
        name := m.artifact.name
        installed := m.artifact.version
        fixedIn := String.intercalate ", " m.vulnerability.fix.versions
        type := m.artifact.type }))

/-! ### The query path (src/cmd/testquery/main.go) -/

/-- testquery `Locations` (src/cmd/testquery/main.go:54-57). -/
structure QLocation where
  path : String := ""
  layerID : String := ""
deriving Repr, DecidableEq

/-- testquery `Vulnerability` (src/cmd/testquery/main.go:41-45): CVE ID (tag
`id`), data source (tag `dataSource`) and the raw severity string.  It has
no member for the fix information. -/
structure QVulnerability where
  cveId : String := ""
  datasource : String := ""
  severity : String := ""
deriving Repr, DecidableEq

/-- testquery `Artifact` (src/cmd/testquery/main.go:47-52). -/
structure QArtifact where
  name : String := ""
  version : String := ""
  type : String := ""
  locations : Option (List QLocation) := none
deriving Repr, DecidableEq

/-- testquery `Nack` (src/cmd/testquery/main.go:59-63). -/
structure QNack where
  url : Option String := none
  cve : String := ""
  reason : String := ""
deriving Repr, DecidableEq

/-- testquery `Match` (src/cmd/testquery/main.go:35-39). -/
structure QMatch where
  vuln : QVulnerability := {}
  nack : Option QNack := none
  artifact : QArtifact := {}
deriving Repr, DecidableEq

/-- Decode one entry of a `locations` array. -/
def decodeQLocation : Json → Except Failure QLocation
  | .null => .ok {}
  | .obj kvs => do
    let j := Json.obj kvs
    let path ← decStrField "" (j.lookupCI "Path")
    let layerID ← decStrField "" (j.lookupCI "LayerID")
    .ok { path := path, layerID := layerID }
  | _ => .error (.decodeError "Locations")

/-- Decode the testquery `Vulnerability` struct from the `vulnerability`
member. -/
def decodeQVulnerability (cur : QVulnerability) :
    Option Json → Except Failure QVulnerability
  | none => .ok cur
  | some .null => .ok cur
  | some (.obj kvs) => do
    let j := Json.obj kvs
    let cveId ← decStrField cur.cveId (j.lookupCI "id")
    let datasource ← decStrField cur.datasource (j.lookupCI "dataSource")
    let severity ← decStrField cur.severity (j.lookupCI "Severity")
    .ok { cveId := cveId, datasource := datasource, severity := severity }
  | some _ => .error (.decodeError "Vulnerability")

/-- Decode the `*Nack` pointer field (missing member keeps the pointer,
`null` nils it). -/
def decodeQNackField (cur : Option QNack) : Option Json → Except Failure (Option QNack)
  | none => .ok cur
  | some .null => .ok none
  | some (.obj kvs) => do
    let j := Json.obj kvs
    let url ←
      match j.lookupCI "Url" with
      | none => pure (none : Option String)
      | some .null => pure (none : Option String)
      | some (.str s) => pure (some s)
      | some _ => .error (.decodeError "Url")
    let cve ← decStrField "" (j.lookupCI "Cve")
    let reason ← decStrField "" (j.lookupCI "Reason")
    .ok (some { url := url, cve := cve, reason := reason })
  | some _ => .error (.decodeError "Nack")

/-- Decode the testquery `Artifact` struct from the `artifact` member. -/
def decodeQArtifact (cur : QArtifact) : Option Json → Except Failure QArtifact
  | none => .ok cur
  | some .null => .ok cur
  | some (.obj kvs) => do
    let j := Json.obj kvs
    let name ← decStrField cur.name (j.lookupCI "Name")
    let version ← decStrField cur.version (j.lookupCI "Version")
    let type ← decStrField cur.type (j.lookupCI "Type")
    let locations ←
      match j.lookupCI "Locations" with
      | none => pure cur.locations
      | some .null => pure (none : Option (List QLocation))
      | some (.arr xs) => do
        let ls ← decodeList decodeQLocation xs
        pure (some ls)
      | some _ => .error (.decodeError "Locations")
    .ok { name := name, version := version, type := type, locations := locations }
  | some _ => .error (.decodeError "Artifact")

/-- Decode one entry of the `matches` array into a fresh testquery `Match`. -/
def decodeQMatch : Json → Except Failure QMatch
  | .null => .ok {}
  | .obj kvs => do
    let j := Json.obj kvs
    let vuln ← decodeQVulnerability {} (j.lookupCI "vulnerability")
    let nack ← decodeQNackField none (j.lookupCI "Nack")
    let artifact ← decodeQArtifact {} (j.lookupCI "Artifact")
    .ok { vuln := vuln, nack := nack, artifact := artifact }
  | _ => .error (.decodeError "Match")

/-- Decode the `matches` member into the `Matches` slice. -/
def decodeQMatchList (cur : List QMatch) : Option Json → Except Failure (List QMatch)
  | none => .ok cur
  | some .null => .ok []
  | some (.arr xs) => decodeList decodeQMatch xs
  | some _ => .error (.decodeError "matches")

/-- Query-side row structure `ImageCveScan`
(src/cmd/testquery/main.go:20-33).  The `raw_grype_json` column (Go field
`MatchesString`) is modelled by the JSON value its text denotes, `none` for
the empty string; the Go field `Matches` is spelled `matchList` because
`matches` is reserved in Lean. -/
structure ImageCveScan where
  githubIssueId : Int := 0
  image : String := ""
  digest : String := ""
  time : String := ""
  created : String := ""
  low : Int := 0
  med : Int := 0
  high : Int := 0
  crit : Int := 0
  negligible : Int := 0
  matchesString : Option Json := none
  matchList : List QMatch := []

/-- Go `json.Unmarshal(b, &is)` into the existing row
(src/cmd/testquery/main.go:96): members are merged into the current values;
a field with no matching member keeps its value.  The `MatchesString` field
itself is never assigned here: a grype document's top-level members are
`matches`, `source`, `distro`, `descriptor` and `ignoredMatches`, none of
which matches that field's name. -/
def unmarshalImageCveScan (r : ImageCveScan) (j : Json) : Except Failure ImageCveScan :=
  match j with
  | .null => .ok r
  | .obj kvs => do
    let jo := Json.obj kvs
    let githubIssueId ← decIntField r.githubIssueId (jo.lookupCI "GithubIssueId")
    let image ← decStrField r.image (jo.lookupCI "Image")
    let digest ← decStrField r.digest (jo.lookupCI "Digest")
    let time ← decStrField r.time (jo.lookupCI "Time")
    let created ← decStrField r.created (jo.lookupCI "Created")
    let low ← decIntField r.low (jo.lookupCI "Low")
    let med ← decIntField r.med (jo.lookupCI "Med")
    let high ← decIntField r.high (jo.lookupCI "High")
    let crit ← decIntField r.crit (jo.lookupCI "Crit")
    let negligible ← decIntField r.negligible (jo.lookupCI "Negligible")
    let matchList ← decodeQMatchList r.matchList (jo.lookupCI "matches")
    .ok { r with
      githubIssueId := githubIssueId, image := image, digest := digest,
      time := time, created := created, low := low, med := med, high := high,
      crit := crit, negligible := negligible, matchList := matchList }
  | _ => .error (.decodeError "ImageCveScan")

/-- One iteration of the row loop in testquery `main`
(src/cmd/testquery/main.go:92-108): when the `raw_grype_json` column is
non-empty, it is re-parsed into the same row structure. -/
def decodeFetchedRow (r : ImageCveScan) : Except Failure ImageCveScan :=
  match r.matchesString with
  | none => .ok r
  | some j => unmarshalImageCveScan r j

/-- The whole fetch loop over a batch of rows.  A failed re-parse hits
`log.Fatal`, which terminates the process, so one failing row aborts every
remaining row and no result is produced; this is the error short-circuit of
`Except`. -/
def processRows : List ImageCveScan → Except Failure (List ImageCveScan)
  | [] => .ok []
  | r :: rs =>
    match decodeFetchedRow r with
    | .error e => .error e
    | .ok r1 =>
      match processRows rs with
      | .error e => .error e
      | .ok l => .ok (r1 :: l)

/-- One printed block of the report loop (src/cmd/testquery/main.go:109-119):
the image name and the five severity counts. -/
structure ReportLine where
  image : String
  crit : Int
  high : Int
  med : Int
  low : Int
  negligible : Int
deriving Repr, DecidableEq

/-- The `total` variable of the report loop: the sum of the five severity
counts of a row. -/
def bucketTotal (s : ImageCveScan) : Int :=
  s.crit + s.high + s.med + s.low + s.negligible

/-- The printed block for one row. -/
def ReportLine.ofScan (s : ImageCveScan) : ReportLine :=
  { image := s.image, crit := s.crit, high := s.high, med := s.med,
    low := s.low, negligible := s.negligible }

/-- The printing loop (src/cmd/testquery/main.go:109-119): one block per
scan whose five severity counts sum to a positive total. -/
def reportScans (scans : List ImageCveScan) : List ReportLine :=
  scans.filterMap (fun s => if bucketTotal s > 0 then some (ReportLine.ofScan s) else none)

/-- A stored row as seen by the SQL statement in testquery `main`
(src/cmd/testquery/main.go:72-87): the filtering column `scanner`, the
partitioning column `image` and the ordering column `time` (timestamps,
modelled by their order as naturals). -/
structure BqRow where
  image : String
  scanner : String
  time : Nat
deriving Repr, DecidableEq

/-- The `WHERE scanner = "grype"` filter. -/
def isGrypeRow (r : BqRow) : Bool := r.scanner == "grype"

/-- The row ranked first by `ROW_NUMBER() OVER (... ORDER BY time DESC)`:
a row of maximal `time` in its partition. -/
def maxTimeRow (r : BqRow) (rs : List BqRow) : BqRow :=
  rs.foldl (fun b x => if b.time < x.time then x else b) r

/-- The partition of the rows for one value of the `image` column. -/
def rowsFor (img : String) (rows : List BqRow) : List BqRow :=
  rows.filter (fun r => r.image == img)

/-- The distinct values of the `image` column (`PARTITION BY image`). -/
def distinctImages : List BqRow → List String
  | [] => []
  | r :: rs =>
    let t := distinctImages rs
    if r.image ∈ t then t else r.image :: t

/-- The latest-scan selector: the SQL statement in testquery `main`
(src/cmd/testquery/main.go:72-87) — restrict to `scanner = "grype"`,
partition by `image`, keep the row of maximal `time` per partition
(`rn = 1`). -/
def latestScans (rows : List BqRow) : List BqRow :=
  let g := rows.filter isGrypeRow
  (distinctImages g).filterMap (fun img =>
    match rowsFor img g with
    | [] => none
    | r :: rs => some (maxTimeRow r rs))

/-! ### A family of well-formed grype reports, used to quantify over "every
valid grype JSON report": the members both decode paths read, with the
schema's canonical key spellings, fully generic in the data content. -/

/-- Content of one match entry of a well-formed grype report. -/
structure MatchData where
  cveID : String
  dataSource : String
  severity : String
  fixVersions : List String
  pkgName : String
  pkgVersion : String
  pkgType : String
  locations : List (String × String)
deriving Repr, DecidableEq

/-- The JSON value of one match entry as grype serializes it. -/
def MatchData.toJson (d : MatchData) : Json :=
  .obj [
    ("vulnerability", .obj [
      ("id", .str d.cveID),
      ("dataSource", .str d.dataSource),
      ("severity", .str d.severity),
      ("fix", .obj [
        ("versions", .arr (d.fixVersions.map Json.str)),
        ("state", .str "fixed")])]),
    ("artifact", .obj [
      ("name", .str d.pkgName),
      ("version", .str d.pkgVersion),
      ("type", .str d.pkgType),
      ("locations", .arr (d.locations.map (fun l =>
        Json.obj [("path", .str l.1), ("layerID", .str l.2)])))])]

/-- Content of a well-formed grype report. -/
structure GrypeReportData where
  repoDigests : List String
  scannerVersion : String
  dbChecksum : String
  matchData : List MatchData
deriving Repr, DecidableEq

/-- The JSON value of the whole report as grype serializes it. -/
def GrypeReportData.toJson (r : GrypeReportData) : Json :=
  .obj [
    ("matches", .arr (r.matchData.map MatchData.toJson)),
    ("source", .obj [
      ("type", .str "image"),
      ("target", .obj [("repoDigests", .arr (r.repoDigests.map Json.str))])]),
    ("distro", .obj [("name", .str "wolfi"), ("version", .str "1")]),
    ("descriptor", .obj [
      ("name", .str "grype"),
      ("version", .str r.scannerVersion),
      ("db", .obj [("checksum", .str r.dbChecksum)])])]

/-- The parsed form of one match on the write path. -/
def MatchData.toGrypeMatch (d : MatchData) : GrypeMatch :=
  { vulnerability := { id := d.cveID, dataSource := d.dataSource,
                       severity := d.severity, fix := { versions := d.fixVersions } },
    artifact := { name := d.pkgName, version := d.pkgVersion, type := d.pkgType } }

/-- The parsed form of the whole report on the write path. -/
def GrypeReportData.toOutput (r : GrypeReportData) : GrypeScanOutput :=
  { matchList := r.matchData.map MatchData.toGrypeMatch,
    source := { target := { repoDigests := r.repoDigests } },
    descriptor := { version := r.scannerVersion, db := { checksum := r.dbChecksum } } }

/-- The parsed form of one match on the query path. -/
def MatchData.toQMatch (d : MatchData) : QMatch :=
  { vuln := { cveId := d.cveID, datasource := d.dataSource, severity := d.severity },
    nack := none,
    artifact := { name := d.pkgName, version := d.pkgVersion, type := d.pkgType,
                  locations := some (d.locations.map (fun l =>
                    { path := l.1, layerID := l.2 })) } }

/-- The write-path vulnerability record of one match, as
`ImageScanSummary.extractVulns` builds it for a summary with id `sid`. -/
def MatchData.toVuln (sid : String) (d : MatchData) : Vuln :=
  { scanId := sid, vulnerability := d.cveID, datasource := d.dataSource,
    severity := d.severity, name := d.pkgName, installed := d.pkgVersion,
    fixedIn := String.intercalate ", " d.fixVersions, type := d.pkgType }

/-- Reconstruction of the vulnerability list from a persisted row's
raw-report column, the way the query path does it
(src/cmd/testquery/main.go:95-100): an empty column yields an empty list,
otherwise the column is re-parsed into the row structure and the nested
match list is taken. -/
def reconstructMatches (raw : Option Json) : Except Failure (List QMatch) :=
  match raw with
  | none => .ok []
  | some j => do
    let row ← unmarshalImageCveScan {} j
    .ok row.matchList

/-- The vulnerability fields shared by the write-path record and the query
path's decoded match: CVE ID, severity string, package name, version and
type. -/
structure VulnKey where
  cveID : String
  severity : String
  pkgName : String
  pkgVersion : String
  pkgType : String
deriving Repr, DecidableEq

/-- Shared-field projection of a query-path match. -/
def QMatch.key (m : QMatch) : VulnKey :=
  { cveID := m.vuln.cveId, severity := m.vuln.severity, pkgName := m.artifact.name,
    pkgVersion := m.artifact.version, pkgType := m.artifact.type }

/-- Shared-field projection of a write-path vulnerability record. -/
def Vuln.key (v : Vuln) : VulnKey :=
  { cveID := v.vulnerability, severity := v.severity, pkgName := v.name,
    pkgVersion := v.installed, pkgType := v.type }

/-! ### Helper lemmas -/

@[simp] theorem exceptOkBind {ε α β : Type} (a : α) (f : α → Except ε β) :
    (Except.ok a : Except ε α) >>= f = f a := rfl

@[simp] theorem exceptErrBind {ε α β : Type} (e : ε) (f : α → Except ε β) :
    (Except.error e : Except ε α) >>= f = Except.error e := rfl

theorem decodeList_map {α β : Type} (f : Json → Except Failure β) (g : α → Json) (h : α → β)
    (hfg : ∀ d, f (g d) = .ok (h d)) (l : List α) :
    decodeList f (l.map g) = .ok (l.map h) := by
  induction l with
  | nil => rfl
  | cons d l ih => simp [decodeList, hfg, ih]

theorem decodeList_strs (l : List String) :
    decodeList decodeJsonStr (l.map Json.str) = .ok l := by
  have := decodeList_map decodeJsonStr Json.str id (fun d => rfl) l
  simpa using this

theorem decodeQLocation_pair (p : String × String) :
    decodeQLocation (Json.obj [("path", .str p.1), ("layerID", .str p.2)])
      = .ok { path := p.1, layerID := p.2 } := by
  simp [decodeQLocation, Json.lookupCI, lookupKey, lookupKeyCI, decStrField,
    asciiLower, asciiLowerChar]

theorem decodeQMatch_toJson (d : MatchData) :
    decodeQMatch d.toJson = .ok d.toQMatch := by
  simp [MatchData.toJson, MatchData.toQMatch, decodeQMatch, decodeQVulnerability,
    decodeQNackField, decodeQArtifact, decStrField, Json.lookupCI, lookupKey, lookupKeyCI,
    asciiLower, asciiLowerChar,
    decodeList_map decodeQLocation _ _ decodeQLocation_pair]

theorem decodeGrypeMatch_toJson (d : MatchData) :
    decodeGrypeMatch d.toJson = .ok d.toGrypeMatch := by
  simp [MatchData.toJson, MatchData.toGrypeMatch, decodeGrypeMatch, decodeGrypeVulnerability,
    decodeGrypeArtifact, decodeGrypeFix, decStrField, decStrListField, Json.lookupCI,
    lookupKey, lookupKeyCI, asciiLower, asciiLowerChar, decodeList_strs]

theorem decodeGrypeScanOutput_toJson (r : GrypeReportData) :
    decodeGrypeScanOutput r.toJson = .ok r.toOutput := by
  simp [GrypeReportData.toJson, GrypeReportData.toOutput, decodeGrypeScanOutput,
    decodeGrypeMatchList, decodeGrypeSource, decodeGrypeDescriptor, decStrField,
    decStrListField, Json.lookupCI, lookupKey, lookupKeyCI, asciiLower, asciiLowerChar,
    decodeList_strs, decodeList_map decodeGrypeMatch _ _ decodeGrypeMatch_toJson]

theorem unmarshal_reportJson (r : GrypeReportData) :
    unmarshalImageCveScan {} r.toJson
      = .ok { matchList := r.matchData.map MatchData.toQMatch } := by
  simp [GrypeReportData.toJson, unmarshalImageCveScan, decIntField, decStrField,
    decodeQMatchList, Json.lookupCI, lookupKey, lookupKeyCI, asciiLower, asciiLowerChar,
    decodeList_map decodeQMatch _ _ decodeQMatch_toJson]

def bucketSum6 (s : ImageScanSummary) : Nat :=
  s.lowCveCount + s.medCveCount + s.highCveCount + s.critCveCount +
    s.negligibleCveCount + s.unknownCveCount

theorem grypeBump_bucketSum (s : ImageScanSummary) (ws : List String) (m : GrypeMatch) :
    bucketSum6 (grypeBump (s, ws) m).1
      = bucketSum6 s + (if recognizedGrype m.vulnerability.severity then 1 else 0) := by
  simp only [grypeBump]
  split_ifs <;> simp_all [recognizedGrype, bucketSum6] <;> omega

theorem grypeBump_unrecognized (s : ImageScanSummary) (ws : List String) (m : GrypeMatch)
    (h : recognizedGrype m.vulnerability.severity = false) :
    grypeBump (s, ws) m
      = (s, ws ++ ["WARNING: unknown severity: " ++ m.vulnerability.severity]) := by
  simp only [grypeBump]
  simp [recognizedGrype] at h
  simp [h]

theorem grypeBump_keeps (s : ImageScanSummary) (ws : List String) (m : GrypeMatch) :
    (grypeBump (s, ws) m).1.totCveCount = s.totCveCount
    ∧ (grypeBump (s, ws) m).1.digest = s.digest
    ∧ (grypeBump (s, ws) m).1.rawGrypeJSON = s.rawGrypeJSON
    ∧ (grypeBump (s, ws) m).1.image = s.image
    ∧ (grypeBump (s, ws) m).1.id = s.id := by
  simp only [grypeBump]
  split_ifs <;> simp

theorem grypeFold_keeps (ms : List GrypeMatch) (s : ImageScanSummary) (ws : List String) :
    (ms.foldl grypeBump (s, ws)).1.totCveCount = s.totCveCount
    ∧ (ms.foldl grypeBump (s, ws)).1.digest = s.digest
    ∧ (ms.foldl grypeBump (s, ws)).1.rawGrypeJSON = s.rawGrypeJSON
    ∧ (ms.foldl grypeBump (s, ws)).1.image = s.image
    ∧ (ms.foldl grypeBump (s, ws)).1.id = s.id := by
  induction ms generalizing s ws with
  | nil => simp
  | cons m ms ih =>
    rw [List.foldl_cons]
    have hb := grypeBump_keeps s ws m
    have hi := ih (grypeBump (s, ws) m).1 (grypeBump (s, ws) m).2
    rw [Prod.mk.eta] at hi
    exact ⟨hi.1.trans hb.1, hi.2.1.trans hb.2.1, hi.2.2.1.trans hb.2.2.1,
      hi.2.2.2.1.trans hb.2.2.2.1, hi.2.2.2.2.trans hb.2.2.2.2⟩

theorem grypeFold_bucketSum (ms : List GrypeMatch) (s : ImageScanSummary) (ws : List String) :
    bucketSum6 (ms.foldl grypeBump (s, ws)).1
      = bucketSum6 s + ms.countP (fun m => recognizedGrype m.vulnerability.severity) := by
  induction ms generalizing s ws with
  | nil => simp
  | cons m ms ih =>
    rw [List.foldl_cons, List.countP_cons]
    have hi := ih (grypeBump (s, ws) m).1 (grypeBump (s, ws) m).2
    rw [Prod.mk.eta] at hi
    rw [hi, grypeBump_bucketSum]
    by_cases h : recognizedGrype m.vulnerability.severity <;> simp [h]
    omega

theorem grypeBump_totSet (s : ImageScanSummary) (ws : List String) (m : GrypeMatch) (k : Nat) :
    grypeBump ({ s with totCveCount := k }, ws) m
      = ({ (grypeBump (s, ws) m).1 with totCveCount := k }, (grypeBump (s, ws) m).2) := by
  simp only [grypeBump]
  split_ifs <;> rfl

theorem grypeFold_totSet (ms : List GrypeMatch) (s : ImageScanSummary) (ws : List String) (k : Nat) :
    ms.foldl grypeBump ({ s with totCveCount := k }, ws)
      = ({ (ms.foldl grypeBump (s, ws)).1 with totCveCount := k },
         (ms.foldl grypeBump (s, ws)).2) := by
  induction ms generalizing s ws with
  | nil => rfl
  | cons m ms ih =>
    rw [List.foldl_cons, grypeBump_totSet, List.foldl_cons]
    have hi := ih (grypeBump (s, ws) m).1 (grypeBump (s, ws) m).2
    rw [Prod.mk.eta] at hi
    exact hi

theorem trivyBump_unrecognized (acc : Nat × ImageScanSummary × List String)
    (v : TrivyVulnerability) (h : recognizedTrivy v.severity = false) :
    trivyBump acc v
      = (acc.1 + 1, acc.2.1, acc.2.2 ++ ["WARNING: unknown severity: " ++ v.severity]) := by
  simp only [trivyBump]
  simp [recognizedTrivy] at h
  simp [h]

theorem trivyInnerFold_keeps (vs : List TrivyVulnerability)
    (acc : Nat × ImageScanSummary × List String) :
    ((vs.foldl trivyBump acc).2.1.digest = acc.2.1.digest)
    ∧ ((vs.foldl trivyBump acc).2.1.rawGrypeJSON = acc.2.1.rawGrypeJSON)
    ∧ ((vs.foldl trivyBump acc).2.1.image = acc.2.1.image) := by
  induction vs generalizing acc with
  | nil => exact ⟨rfl, rfl, rfl⟩
  | cons v vs ih =>
    rw [List.foldl_cons]
    have hb : ((trivyBump acc v).2.1.digest = acc.2.1.digest)
        ∧ ((trivyBump acc v).2.1.rawGrypeJSON = acc.2.1.rawGrypeJSON)
        ∧ ((trivyBump acc v).2.1.image = acc.2.1.image) := by
      simp only [trivyBump]
      split_ifs <;> simp
    have hi := ih (trivyBump acc v)
    exact ⟨hi.1.trans hb.1, hi.2.1.trans hb.2.1, hi.2.2.trans hb.2.2⟩

theorem trivyFold_keeps (results : List TrivyResult)
    (acc : Nat × ImageScanSummary × List String) :
    let f := results.foldl (fun a res => res.vulnerabilities.foldl trivyBump a) acc
    (f.2.1.digest = acc.2.1.digest)
    ∧ (f.2.1.rawGrypeJSON = acc.2.1.rawGrypeJSON)
    ∧ (f.2.1.image = acc.2.1.image) := by
  induction results generalizing acc with
  | nil => exact ⟨rfl, rfl, rfl⟩
  | cons res results ih =>
    rw [List.foldl_cons]
    have hb := trivyInnerFold_keeps res.vulnerabilities acc
    have hi := ih (res.vulnerabilities.foldl trivyBump acc)
    exact ⟨hi.1.trans hb.1, hi.2.1.trans hb.2.1, hi.2.2.trans hb.2.2⟩

/-- The summary record the grype normalizer has built when the counting loop
starts (src/unnamed/part_000:320-332 with the digest already extracted). -/
def grypeBase (image scanTime : String) (output : GrypeScanOutput) (dig : String) :
    ImageScanSummary :=
  { image := image, scanner := "grype", time := scanTime, success := true,
    scannerVersion := output.descriptor.version,
    scannerDbVersion := output.descriptor.db.checksum,
    digest := dig, totCveCount := output.matchList.length }

theorem grypeOutputToSummary_eq (image scanTime : String) (output : GrypeScanOutput) :
    grypeOutputToSummary image scanTime output
      = match output.source.target.repoDigests[0]? with
        | none => .error .panicIndexOutOfRange
        | some d =>
          match (stringSplit d '@')[1]? with
          | none => .error .panicIndexOutOfRange
          | some dig =>
            .ok (output.matchList.foldl grypeBump
              (grypeBase image scanTime output dig, [])) := rfl

theorem grypeBase_snoc (image scanTime : String) (output : GrypeScanOutput)
    (m : GrypeMatch) (dig : String) :
    grypeBase image scanTime { output with matchList := output.matchList ++ [m] } dig
      = { grypeBase image scanTime output dig with
          totCveCount := output.matchList.length + 1 } := by
  simp [grypeBase]

theorem grypeBump_unrecognized2 (acc : ImageScanSummary × List String) (m : GrypeMatch)
    (h : recognizedGrype m.vulnerability.severity = false) :
    grypeBump acc m
      = (acc.1, acc.2 ++ ["WARNING: unknown severity: " ++ m.vulnerability.severity]) := by
  simp only [grypeBump]
  simp [recognizedGrype] at h
  simp [h]

/-- The summary record the trivy normalizer has built when the counting loop
starts (src/unnamed/part_000:357-369 with the digest already extracted). -/
def trivyBase (image scanTime : String) (tv : TrivyVersionOutput) (dig : String) :
    ImageScanSummary :=
  { image := image, scanner := "trivy", time := scanTime, negligibleCveCount := 0,
    success := true, scannerVersion := tv.version,
    scannerDbVersion := tv.vulnerabilityDB.updatedAt, digest := dig }

theorem trivyOutputToSummary_eq (image scanTime : String) (output : TrivyScanOutput)
    (tv : TrivyVersionOutput) :
    trivyOutputToSummary image scanTime output tv
      = match output.metadata.repoDigests[0]? with
        | none => .error .panicIndexOutOfRange
        | some d =>
          match (stringSplit d '@')[1]? with
          | none => .error .panicIndexOutOfRange
          | some dig =>
            let acc := output.results.foldl
              (fun a res => res.vulnerabilities.foldl trivyBump a)
              (0, trivyBase image scanTime tv dig, [])
            .ok ({ acc.2.1 with totCveCount := acc.1 }, acc.2.2) := rfl

/-- C4: for every grype report that the normalizer turns into a summary, the
six severity-bucket counts sum to at most `total`, and the sum equals
`total` exactly when every match's severity string is one of the recognized
strings Low, Medium, High, Critical, Negligible, Unknown. -/
theorem c4_bucket_sum_le_total (image scanTime : String) (output : GrypeScanOutput)
    (s : ImageScanSummary) (ws : List String)
    (hok : grypeOutputToSummary image scanTime output = .ok (s, ws)) :
    bucketSum6 s ≤ s.totCveCount
    ∧ (bucketSum6 s = s.totCveCount ↔
        ∀ m ∈ output.matchList, recognizedGrype m.vulnerability.severity = true) := by
  simp only [grypeOutputToSummary] at hok
  split at hok
  · simp at hok
  · split at hok
    · simp at hok
    · simp only [Except.ok.injEq, Prod.ext_iff] at hok
      obtain ⟨h1, h2⟩ := hok
      subst h1
      rw [grypeFold_bucketSum]
      rw [(grypeFold_keeps _ _ _).1]
      constructor
      · simp only [bucketSum6]
        simpa using
          List.countP_le_length (fun m : GrypeMatch => recognizedGrype m.vulnerability.severity)
      · simp only [bucketSum6]
        simp [List.countP_eq_length]

/-- Unwrap a successful normalizer result (used only to name concrete
results in witnesses). -/
def okOr (x : Except Failure (ImageScanSummary × List String)) :
    ImageScanSummary × List String :=
  match x with
  | .ok p => p
  | .error _ => ({}, [])

/-- A concrete grype report output for the C4 witness: one recognized and
one unrecognized severity. -/
def c4Out : GrypeScanOutput :=
  { matchList := [{ vulnerability := { id := "CVE-A", severity := "High" } },
                  { vulnerability := { id := "CVE-B", severity := "Wild" } }],
    source := { target := { repoDigests := ["repo@sha256:aaa"] } } }

/-- The summary built from `c4Out`. -/
def c4Res : ImageScanSummary × List String :=
  okOr (grypeOutputToSummary "img" "2024-01-01T00:00:00Z" c4Out)

/-- Witness for C4 at a concrete grype report. -/
theorem c4_witness :
    grypeOutputToSummary "img" "2024-01-01T00:00:00Z" c4Out = .ok (c4Res.1, c4Res.2)
    ∧ bucketSum6 c4Res.1 ≤ c4Res.1.totCveCount :=
  ⟨rfl, (c4_bucket_sum_le_total "img" "2024-01-01T00:00:00Z" c4Out c4Res.1 c4Res.2 rfl).1⟩

/-- C5: a match entry whose severity string is unrecognized for its scanner
increments `total` but none of the six severity buckets, appends a warning
line, and does not fail: the summary is still produced by both normalizers. -/
theorem c5_unrecognized_severity :
    (∀ (image scanTime : String) (output : GrypeScanOutput) (m : GrypeMatch)
        (s : ImageScanSummary) (ws : List String),
      recognizedGrype m.vulnerability.severity = false →
      grypeOutputToSummary image scanTime output = .ok (s, ws) →
      ∃ s2 ws2,
        grypeOutputToSummary image scanTime
            { output with matchList := output.matchList ++ [m] } = .ok (s2, ws2)
        ∧ s2.totCveCount = s.totCveCount + 1
        ∧ s2.lowCveCount = s.lowCveCount ∧ s2.medCveCount = s.medCveCount
        ∧ s2.highCveCount = s.highCveCount ∧ s2.critCveCount = s.critCveCount
        ∧ s2.negligibleCveCount = s.negligibleCveCount
        ∧ s2.unknownCveCount = s.unknownCveCount
        ∧ ws2 = ws ++ ["WARNING: unknown severity: " ++ m.vulnerability.severity])
    ∧ (∀ (image scanTime : String) (output : TrivyScanOutput) (tv : TrivyVersionOutput)
        (v : TrivyVulnerability) (s : ImageScanSummary) (ws : List String),
      recognizedTrivy v.severity = false →
      trivyOutputToSummary image scanTime output tv = .ok (s, ws) →
      ∃ s2 ws2,
        trivyOutputToSummary image scanTime
            { output with results := output.results ++ [{ vulnerabilities := [v] }] } tv
          = .ok (s2, ws2)
        ∧ s2.totCveCount = s.totCveCount + 1
        ∧ s2.lowCveCount = s.lowCveCount ∧ s2.medCveCount = s.medCveCount
        ∧ s2.highCveCount = s.highCveCount ∧ s2.critCveCount = s.critCveCount
        ∧ s2.negligibleCveCount = s.negligibleCveCount
        ∧ s2.unknownCveCount = s.unknownCveCount
        ∧ ws2 = ws ++ ["WARNING: unknown severity: " ++ v.severity]) := by
  constructor
  · intro image scanTime output m s ws hm hok
    rw [grypeOutputToSummary_eq] at hok
    cases hD : output.source.target.repoDigests[0]? with
    | none => rw [hD] at hok; simp at hok
    | some d =>
      rw [hD] at hok
      dsimp only at hok
      cases hS : (stringSplit d '@')[1]? with
      | none => rw [hS] at hok; simp at hok
      | some dig =>
        rw [hS] at hok
        dsimp only at hok
        simp only [Except.ok.injEq, Prod.ext_iff] at hok
        obtain ⟨hs, hw⟩ := hok
        rw [grypeOutputToSummary_eq]
        dsimp only
        rw [hD]
        dsimp only
        rw [hS]
        dsimp only
        rw [grypeBase_snoc, grypeFold_totSet, List.foldl_append]
        dsimp only [List.foldl_cons, List.foldl_nil]
        rw [grypeBump_unrecognized2 _ _ hm]
        refine ⟨_, _, rfl, ?_, ?_, ?_, ?_, ?_, ?_, ?_, ?_⟩ <;>
          simp [← hs, ← hw, (grypeFold_keeps _ _ _).1, grypeBase]
  · intro image scanTime output tv v s ws hv hok
    rw [trivyOutputToSummary_eq] at hok
    cases hD : output.metadata.repoDigests[0]? with
    | none => rw [hD] at hok; simp at hok
    | some d =>
      rw [hD] at hok
      dsimp only at hok
      cases hS : (stringSplit d '@')[1]? with
      | none => rw [hS] at hok; simp at hok
      | some dig =>
        rw [hS] at hok
        dsimp only at hok
        simp only [Except.ok.injEq, Prod.ext_iff] at hok
        obtain ⟨hs, hw⟩ := hok
        rw [trivyOutputToSummary_eq]
        dsimp only
        rw [hD]
        dsimp only
        rw [hS]
        dsimp only
        rw [List.foldl_append]
        dsimp only [List.foldl_cons, List.foldl_nil]
        rw [trivyBump_unrecognized _ _ hv]
        refine ⟨_, _, rfl, ?_, ?_, ?_, ?_, ?_, ?_, ?_, ?_⟩ <;>
          simp [← hs, ← hw]

/-- A concrete grype output for the C5 witness. -/
def c5GrypeOut : GrypeScanOutput :=
  { source := { target := { repoDigests := ["r@sha256:bbb"] } } }

/-- A grype match with an unrecognized severity string. -/
def c5BadMatch : GrypeMatch :=
  { vulnerability := { id := "CVE-X", severity := "Catastrophic" } }

/-- The summary built from `c5GrypeOut`. -/
def c5ResG : ImageScanSummary × List String :=
  okOr (grypeOutputToSummary "i" "t" c5GrypeOut)

/-- A concrete trivy output for the C5 witness. -/
def c5TrivyOut : TrivyScanOutput :=
  { metadata := { repoDigests := ["r@sha256:ccc"] } }

/-- A concrete trivy version for the C5 witness. -/
def c5Tv : TrivyVersionOutput := { version := "0.44" }

/-- A trivy vulnerability with an unrecognized severity string. -/
def c5TrivyVuln : TrivyVulnerability := { severity := "Catastrophic" }

/-- The summary built from `c5TrivyOut`. -/
def c5ResT : ImageScanSummary × List String :=
  okOr (trivyOutputToSummary "i" "t" c5TrivyOut c5Tv)

/-- Witness for C5 at concrete reports for both scanners. -/
theorem c5_witness :
    (∃ s2 ws2,
      grypeOutputToSummary "i" "t"
          { c5GrypeOut with matchList := c5GrypeOut.matchList ++ [c5BadMatch] }
        = .ok (s2, ws2)
      ∧ s2.totCveCount = c5ResG.1.totCveCount + 1
      ∧ s2.lowCveCount = c5ResG.1.lowCveCount ∧ s2.medCveCount = c5ResG.1.medCveCount
      ∧ s2.highCveCount = c5ResG.1.highCveCount ∧ s2.critCveCount = c5ResG.1.critCveCount
      ∧ s2.negligibleCveCount = c5ResG.1.negligibleCveCount
      ∧ s2.unknownCveCount = c5ResG.1.unknownCveCount
      ∧ ws2 = c5ResG.2
          ++ ["WARNING: unknown severity: " ++ c5BadMatch.vulnerability.severity])
    ∧ (∃ s2 ws2,
      trivyOutputToSummary "i" "t"
          { c5TrivyOut with results := c5TrivyOut.results ++ [{ vulnerabilities := [c5TrivyVuln] }] }
          c5Tv
        = .ok (s2, ws2)
      ∧ s2.totCveCount = c5ResT.1.totCveCount + 1
      ∧ s2.lowCveCount = c5ResT.1.lowCveCount ∧ s2.medCveCount = c5ResT.1.medCveCount
      ∧ s2.highCveCount = c5ResT.1.highCveCount ∧ s2.critCveCount = c5ResT.1.critCveCount
      ∧ s2.negligibleCveCount = c5ResT.1.negligibleCveCount
      ∧ s2.unknownCveCount = c5ResT.1.unknownCveCount
      ∧ ws2 = c5ResT.2 ++ ["WARNING: unknown severity: " ++ c5TrivyVuln.severity]) :=
  ⟨c5_unrecognized_severity.1 "i" "t" c5GrypeOut c5BadMatch c5ResG.1 c5ResG.2 rfl rfl,
   c5_unrecognized_severity.2 "i" "t" c5TrivyOut c5Tv c5TrivyVuln c5ResT.1 c5ResT.2 rfl rfl⟩

/-- C2 counterexample: on a report with an empty repo-digest list, the grype
normalizer fails with a runtime index-out-of-range panic (a crash that kills
the process), not with a `DigestMissingError` surfaced to the caller; the
trivy normalizer behaves the same way. -/
theorem c2_counterexample :
    grypeOutputToSummary "cgr.dev/chainguard/static:latest" "2024-01-01T00:00:00Z" {}
      = .error .panicIndexOutOfRange
    ∧ grypeOutputToSummary "cgr.dev/chainguard/static:latest" "2024-01-01T00:00:00Z" {}
      ≠ .error .digestMissingError
    ∧ trivyOutputToSummary "cgr.dev/chainguard/static:latest" "2024-01-01T00:00:00Z" {} {}
      = .error .panicIndexOutOfRange
    ∧ trivyOutputToSummary "cgr.dev/chainguard/static:latest" "2024-01-01T00:00:00Z" {} {}
      ≠ .error .digestMissingError :=
  ⟨rfl, fun h => Failure.noConfusion (Except.error.inj h),
   rfl, fun h => Failure.noConfusion (Except.error.inj h)⟩

/-- C2 (amended): both normalizers set `digest` to the second `@`-separated
segment of the first scanner-reported repo-digest; when the repo-digest list
is empty they panic (index out of range), a crash, rather than returning a
`DigestMissingError` value. -/
theorem c2_digest_extraction :
    (∀ (image scanTime : String) (output : GrypeScanOutput) (d : String)
        (rest : List String) (x : String),
      output.source.target.repoDigests = d :: rest →
      (stringSplit d '@')[1]? = some x →
      ∃ s ws, grypeOutputToSummary image scanTime output = .ok (s, ws) ∧ s.digest = x)
    ∧ (∀ (image scanTime : String) (output : GrypeScanOutput),
      output.source.target.repoDigests = [] →
      grypeOutputToSummary image scanTime output = .error .panicIndexOutOfRange)
    ∧ (∀ (image scanTime : String) (output : TrivyScanOutput) (tv : TrivyVersionOutput)
        (d : String) (rest : List String) (x : String),
      output.metadata.repoDigests = d :: rest →
      (stringSplit d '@')[1]? = some x →
      ∃ s ws, trivyOutputToSummary image scanTime output tv = .ok (s, ws) ∧ s.digest = x)
    ∧ (∀ (image scanTime : String) (output : TrivyScanOutput) (tv : TrivyVersionOutput),
      output.metadata.repoDigests = [] →
      trivyOutputToSummary image scanTime output tv = .error .panicIndexOutOfRange) := by
  refine ⟨?_, ?_, ?_, ?_⟩
  · intro image scanTime output d rest x hd hx
    rw [grypeOutputToSummary_eq, hd]
    simp only [List.getElem?_cons_zero, hx]
    refine ⟨_, _, rfl, ?_⟩
    rw [(grypeFold_keeps _ _ _).2.1]
    simp [grypeBase]
  · intro image scanTime output hd
    rw [grypeOutputToSummary_eq, hd]
    rfl
  · intro image scanTime output tv d rest x hd hx
    rw [trivyOutputToSummary_eq, hd]
    simp only [List.getElem?_cons_zero, hx]
    refine ⟨_, _, rfl, ?_⟩
    have hk := (trivyFold_keeps output.results
      (0, trivyBase image scanTime tv x, [])).1
    simpa [trivyBase] using hk
  · intro image scanTime output tv hd
    rw [trivyOutputToSummary_eq, hd]
    rfl

/-- A grype output with one well-formed repo-digest. -/
def c2GrypeOut : GrypeScanOutput :=
  { source := { target := { repoDigests := ["repo@sha256:abc"] } } }

/-- A trivy output with one well-formed repo-digest. -/
def c2TrivyOut : TrivyScanOutput :=
  { metadata := { repoDigests := ["repo@sha256:abc"] } }

/-- Witness for C2 at concrete inputs, one per conjunct. -/
theorem c2_witness :
    (∃ s ws, grypeOutputToSummary "i" "t" c2GrypeOut = .ok (s, ws)
      ∧ s.digest = "sha256:abc")
    ∧ grypeOutputToSummary "i" "t" {} = .error .panicIndexOutOfRange
    ∧ (∃ s ws, trivyOutputToSummary "i" "t" c2TrivyOut {} = .ok (s, ws)
      ∧ s.digest = "sha256:abc")
    ∧ trivyOutputToSummary "i" "t" {} {} = .error .panicIndexOutOfRange :=
  ⟨c2_digest_extraction.1 "i" "t" c2GrypeOut "repo@sha256:abc" [] "sha256:abc" rfl rfl,
   c2_digest_extraction.2.1 "i" "t" {} rfl,
   c2_digest_extraction.2.2.1 "i" "t" c2TrivyOut {} "repo@sha256:abc" [] "sha256:abc" rfl rfl,
   c2_digest_extraction.2.2.2 "i" "t" {} {} rfl⟩

/-- A fetched row whose raw-report column does not re-parse (its `matches`
member is a number, not an array). -/
def c3BadRow : ImageCveScan :=
  { image := "bad", matchesString := some (.obj [("matches", .num 0)]) }

/-- A fetched row that decodes fine. -/
def c3GoodRow : ImageCveScan := { image := "good", crit := 1 }

/-- C3 counterexample: a batch holding one row with a broken raw-report
column and one healthy row produces no result at all — `log.Fatal`
terminates the process on the first failing row, so the healthy row is never
processed, even though it decodes fine on its own. -/
theorem c3_counterexample :
    processRows [c3BadRow, c3GoodRow] = .error (.decodeError "matches")
    ∧ decodeFetchedRow c3GoodRow = .ok c3GoodRow :=
  ⟨rfl, rfl⟩

/-- C3 (amended): a raw-report re-parse failure during querying is fatal to
the whole batch: the process exits at the first failing row, so rows after
it are not processed and no result is produced. -/
theorem c3_decode_failure_aborts_batch (pre post : List ImageCveScan)
    (r : ImageCveScan) (e : Failure)
    (hpre : ∀ x ∈ pre, ∃ y, decodeFetchedRow x = .ok y)
    (hr : decodeFetchedRow r = .error e) :
    processRows (pre ++ r :: post) = .error e := by
  induction pre with
  | nil =>
    simp only [List.nil_append, processRows, hr]
  | cons a pre ih =>
    obtain ⟨y, hy⟩ := hpre a (by simp)
    have ih2 := ih (fun x hx => hpre x (by simp [hx]))
    simp only [List.cons_append, processRows, hy, List.append_eq, ih2]

/-- Witness for C3: the abort theorem applied to a concrete two-row batch. -/
theorem c3_witness :
    processRows ([c3GoodRow] ++ c3BadRow :: []) = .error (.decodeError "matches") :=
  c3_decode_failure_aborts_batch [c3GoodRow] [] c3BadRow (.decodeError "matches")
    (fun x hx => by
      rw [List.mem_singleton] at hx
      subst hx
      exact ⟨c3GoodRow, rfl⟩) rfl

/-- C9: decoding a persisted row whose raw-report column is the empty string
succeeds without re-parsing, and the reconstructed vulnerability list is
empty. -/
theorem c9_empty_raw_column (r : ImageCveScan) (hraw : r.matchesString = none) :
    decodeFetchedRow r = .ok r ∧ reconstructMatches r.matchesString = .ok [] := by
  constructor
  · simp only [decodeFetchedRow, hraw]
  · rw [hraw]
    rfl

/-- A row persisted before raw-report capture existed. -/
def c9Row : ImageCveScan := { image := "old-row", crit := 3 }

/-- Witness for C9 at a concrete row with an empty raw-report column. -/
theorem c9_witness :
    decodeFetchedRow c9Row = .ok c9Row ∧ reconstructMatches c9Row.matchesString = .ok [] :=
  c9_empty_raw_column c9Row rfl

/-- C8: a selected row whose five severity counts sum to zero is excluded
from the printed report, while a row with a positive sum is reported with
its image name and the five severity counts. -/
theorem c8_zero_total_excluded (scans : List ImageCveScan) (s : ImageCveScan)
    (hs : s ∈ scans) :
    (bucketTotal s = 0 → ReportLine.ofScan s ∉ reportScans scans)
    ∧ (bucketTotal s > 0 → ReportLine.ofScan s ∈ reportScans scans) := by
  constructor
  · intro h0 hmem
    rw [reportScans, List.mem_filterMap] at hmem
    obtain ⟨a, ha, hfa⟩ := hmem
    by_cases hp : bucketTotal a > 0
    · rw [if_pos hp] at hfa
      have hline := Option.some.inj hfa
      have h2 : bucketTotal a = bucketTotal s := by
        have h3 := congrArg
          (fun l : ReportLine => l.crit + l.high + l.med + l.low + l.negligible) hline
        simpa [ReportLine.ofScan, bucketTotal] using h3
      omega
    · rw [if_neg hp] at hfa
      exact Option.noConfusion hfa
  · intro hpos
    rw [reportScans, List.mem_filterMap]
    exact ⟨s, hs, by rw [if_pos hpos]⟩

/-- A selected row with every severity count at zero. -/
def c8Zero : ImageCveScan := { image := "zero-row" }

/-- A selected row with a positive severity total. -/
def c8Pos : ImageCveScan := { image := "pos-row", crit := 2 }

/-- Witness for C8 on a concrete two-row report. -/
theorem c8_witness :
    (ReportLine.ofScan c8Zero ∉ reportScans [c8Zero, c8Pos])
    ∧ ReportLine.ofScan c8Pos ∈ reportScans [c8Zero, c8Pos] :=
  ⟨(c8_zero_total_excluded [c8Zero, c8Pos] c8Zero (by simp)).1 (by decide),
   (c8_zero_total_excluded [c8Zero, c8Pos] c8Pos (by simp)).2 (by decide)⟩

/-- C6 (amended): a grype JSON scan embeds the complete raw report,
minified, in the summary's `rawGrypeJSON` field; a trivy JSON scan never
sets that field, so it stays empty and the trivy vulnerability list is not
reconstructable from the summary. -/
theorem c6_raw_report_embedding :
    (∀ (image scanTime : String) (j : Json) (s : ImageScanSummary) (ws : List String),
      scanImageGrype image scanTime j = .ok (s, ws) → s.rawGrypeJSON = some j)
    ∧ (∀ (image scanTime : String) (tv : TrivyVersionOutput) (j : Json)
        (s : ImageScanSummary) (ws : List String),
      scanImageTrivy image scanTime tv j = .ok (s, ws) → s.rawGrypeJSON = none) := by
  constructor
  · intro image scanTime j s ws h
    simp only [scanImageGrype] at h
    cases hdec : decodeGrypeScanOutput j with
    | error e => rw [hdec] at h; simp at h
    | ok output =>
      rw [hdec] at h
      simp only [exceptOkBind] at h
      cases hg : grypeOutputToSummary image scanTime output with
      | error e => rw [hg] at h; simp at h
      | ok p =>
        obtain ⟨p1, p2⟩ := p
        rw [hg] at h
        simp only [exceptOkBind] at h
        simp only [Except.ok.injEq, Prod.ext_iff] at h
        obtain ⟨h1, h2⟩ := h
        rw [← h1]
  · intro image scanTime tv j s ws h
    simp only [scanImageTrivy] at h
    cases hdec : decodeTrivyScanOutput j with
    | error e => rw [hdec] at h; simp at h
    | ok output =>
      rw [hdec] at h
      simp only [exceptOkBind] at h
      rw [trivyOutputToSummary_eq] at h
      cases hD : output.metadata.repoDigests[0]? with
      | none => rw [hD] at h; simp at h
      | some d =>
        rw [hD] at h
        dsimp only at h
        cases hS : (stringSplit d '@')[1]? with
        | none => rw [hS] at h; simp at h
        | some dig =>
          rw [hS] at h
          dsimp only at h
          simp only [Except.ok.injEq, Prod.ext_iff] at h
          obtain ⟨h1, h2⟩ := h
          rw [← h1]
          have hk := (trivyFold_keeps output.results
            (0, trivyBase image scanTime tv dig, [])).2.1
          simpa [trivyBase] using hk

/-- A concrete trivy JSON report. -/
def c6TrivyJson : Json :=
  .obj [("Metadata", .obj [("RepoDigests", .arr [.str "repo@sha256:def"])]),
        ("Results", .arr [.obj [("Vulnerabilities", .arr [.obj [("Severity", .str "LOW")]])]])]

/-- The summary of a trivy scan of `c6TrivyJson`. -/
def c6ResT : ImageScanSummary × List String :=
  okOr (scanImageTrivy "img" "t" { version := "0.44" } c6TrivyJson)

/-- C6 counterexample: the trivy JSON scan of `c6TrivyJson` produces a
summary, but its raw-report field is empty rather than holding the report —
the claim's "either scanner" fails for trivy. -/
theorem c6_counterexample :
    scanImageTrivy "img" "t" { version := "0.44" } c6TrivyJson = .ok (c6ResT.1, c6ResT.2)
    ∧ c6ResT.1.rawGrypeJSON = none
    ∧ (none : Option Json) ≠ some c6TrivyJson :=
  ⟨rfl, rfl, fun h => Option.noConfusion h⟩

/-- A concrete grype JSON report. -/
def c6GrypeJson : Json :=
  .obj [("matches", .arr []),
        ("source", .obj [("target", .obj [("repoDigests", .arr [.str "repo@sha256:abc"])])]),
        ("descriptor", .obj [("version", .str "0.60"),
          ("db", .obj [("checksum", .str "sha256:db")])])]

/-- The summary of a grype scan of `c6GrypeJson`. -/
def c6ResG : ImageScanSummary × List String :=
  okOr (scanImageGrype "i" "t" c6GrypeJson)

/-- Witness for C6 at concrete reports for both scanners. -/
theorem c6_witness :
    c6ResG.1.rawGrypeJSON = some c6GrypeJson ∧ c6ResT.1.rawGrypeJSON = none :=
  ⟨c6_raw_report_embedding.1 "i" "t" c6GrypeJson c6ResG.1 c6ResG.2 rfl,
   c6_raw_report_embedding.2 "img" "t" { version := "0.44" } c6TrivyJson
     c6ResT.1 c6ResT.2 rfl⟩

theorem mem_distinctImages (rows : List BqRow) :
    ∀ a, a ∈ distinctImages rows ↔ a ∈ rows.map (fun r => r.image) := by
  induction rows with
  | nil => intro a; simp [distinctImages]
  | cons r rs ih =>
    intro a
    simp only [distinctImages, List.map_cons, List.mem_cons]
    by_cases h : r.image ∈ distinctImages rs
    · rw [if_pos h, ih a]
      constructor
      · exact Or.inr
      · rintro (rfl | hx)
        · exact (ih _).mp h
        · exact hx
    · rw [if_neg h]
      simp only [List.mem_cons]
      rw [ih a]

theorem nodup_distinctImages (rows : List BqRow) : (distinctImages rows).Nodup := by
  induction rows with
  | nil => simp [distinctImages]
  | cons r rs ih =>
    simp only [distinctImages]
    by_cases h : r.image ∈ distinctImages rs
    · rw [if_pos h]; exact ih
    · rw [if_neg h]; exact List.nodup_cons.mpr ⟨h, ih⟩

theorem maxTimeRow_mem (r : BqRow) (rs : List BqRow) :
    maxTimeRow r rs ∈ r :: rs := by
  induction rs generalizing r with
  | nil => simp [maxTimeRow]
  | cons x xs ih =>
    by_cases hc : r.time < x.time
    · simp only [maxTimeRow, List.foldl_cons, if_pos hc]
      have h := ih x
      simp only [maxTimeRow] at h
      rcases List.mem_cons.mp h with h1 | h1
      · exact List.mem_cons.mpr (Or.inr (List.mem_cons.mpr (Or.inl h1)))
      · exact List.mem_cons.mpr (Or.inr (List.mem_cons.mpr (Or.inr h1)))
    · simp only [maxTimeRow, List.foldl_cons, if_neg hc]
      have h := ih r
      simp only [maxTimeRow] at h
      rcases List.mem_cons.mp h with h1 | h1
      · exact List.mem_cons.mpr (Or.inl h1)
      · exact List.mem_cons.mpr (Or.inr (List.mem_cons.mpr (Or.inr h1)))

theorem maxTimeRow_time (r : BqRow) (rs : List BqRow) :
    r.time ≤ (maxTimeRow r rs).time ∧ ∀ x ∈ rs, x.time ≤ (maxTimeRow r rs).time := by
  induction rs generalizing r with
  | nil => simp [maxTimeRow]
  | cons x xs ih =>
    by_cases hc : r.time < x.time
    · simp only [maxTimeRow, List.foldl_cons, if_pos hc]
      have h := ih x
      simp only [maxTimeRow] at h
      refine ⟨le_trans (le_of_lt hc) h.1, ?_⟩
      intro y hy
      rcases List.mem_cons.mp hy with rfl | hy2
      · exact h.1
      · exact h.2 y hy2
    · simp only [maxTimeRow, List.foldl_cons, if_neg hc]
      have h := ih r
      simp only [maxTimeRow] at h
      refine ⟨h.1, ?_⟩
      intro y hy
      rcases List.mem_cons.mp hy with rfl | hy2
      · exact le_trans (by omega) h.1
      · exact h.2 y hy2

theorem mem_rowsFor {x : BqRow} {img : String} {rows : List BqRow} :
    x ∈ rowsFor img rows ↔ x ∈ rows ∧ x.image = img := by
  simp [rowsFor, List.mem_filter]

theorem countP_pick (g : List BqRow) (L : List String) (img : String)
    (hN : L.Nodup) (hne : ∀ a ∈ L, a ∈ g.map (fun r => r.image)) :
    ((L.filterMap (fun i =>
        match rowsFor i g with
        | [] => none
        | r :: rs => some (maxTimeRow r rs))).countP (fun r => r.image == img))
      = if img ∈ L then 1 else 0 := by
  induction L with
  | nil => simp
  | cons a L ih =>
    have hmem := hne a (List.mem_cons_self a L)
    obtain ⟨rr, hrr1, hrr2⟩ : ∃ rr, rr ∈ g ∧ rr.image = a := by
      rw [List.mem_map] at hmem
      obtain ⟨rr, h1, h2⟩ := hmem
      exact ⟨rr, h1, h2⟩
    cases hR : rowsFor a g with
    | nil =>
      exfalso
      have hin : rr ∈ rowsFor a g := mem_rowsFor.mpr ⟨hrr1, hrr2⟩
      rw [hR] at hin
      exact List.not_mem_nil rr hin
    | cons r rs =>
      have hsel : (maxTimeRow r rs).image = a := by
        have hm : maxTimeRow r rs ∈ r :: rs := maxTimeRow_mem r rs
        rw [← hR] at hm
        exact (mem_rowsFor.mp hm).2
      simp only [List.filterMap_cons, hR]
      rw [List.countP_cons]
      have ihh := ih (List.Nodup.of_cons hN)
        (fun b hb => hne b (List.mem_cons_of_mem a hb))
      rw [ihh]
      by_cases hia : img = a
      · subst hia
        have hniL : img ∉ L := (List.nodup_cons.mp hN).1
        simp [hniL, hsel]
      · have : ¬((maxTimeRow r rs).image == img) := by
          rw [hsel]
          simp only [beq_iff_eq]
          exact fun hh => hia hh.symm
        simp [List.mem_cons, hia, this]

/-- Row for image X at time T1. -/
def c7X1 : BqRow := { image := "X", scanner := "grype", time := 1 }

/-- Row for image X at time T2. -/
def c7X2 : BqRow := { image := "X", scanner := "grype", time := 2 }

/-- Row for image X at time T3. -/
def c7X3 : BqRow := { image := "X", scanner := "grype", time := 3 }

/-- Row for image Y at time T4. -/
def c7Y4 : BqRow := { image := "Y", scanner := "grype", time := 4 }

/-- Three scans of image X and one of image Y. -/
def c7Rows : List BqRow := [c7X1, c7X2, c7X3, c7Y4]

/-- C7: the latest-scan selector returns, per distinct image of the
grype-filtered rows, exactly one row (count one when the image occurs, zero
otherwise), and every returned row is one of the input rows with the maximum
time among its image's rows; in particular on three rows for X at times
1 < 2 < 3 and one row for Y at time 4 it returns exactly X's time-3 row and
Y's time-4 row. -/
theorem c7_latest_selector :
    (∀ rows : List BqRow,
      (∀ r ∈ latestScans rows,
        r ∈ rows.filter isGrypeRow
        ∧ ∀ x ∈ rows.filter isGrypeRow, x.image = r.image → x.time ≤ r.time)
      ∧ (∀ img, (latestScans rows).countP (fun r => r.image == img)
          = if img ∈ (rows.filter isGrypeRow).map (fun r => r.image) then 1 else 0))
    ∧ latestScans c7Rows = [c7X3, c7Y4] := by
  constructor
  case right => decide
  intro rows
  constructor
  · intro r hr
    simp only [latestScans, List.mem_filterMap] at hr
    obtain ⟨img, himg, hpick⟩ := hr
    cases hR : rowsFor img (rows.filter isGrypeRow) with
    | nil => rw [hR] at hpick; exact Option.noConfusion hpick
    | cons a as =>
      rw [hR] at hpick
      have hsel := Option.some.inj hpick
      have hm : maxTimeRow a as ∈ a :: as := maxTimeRow_mem a as
      rw [← hR] at hm
      rw [hsel] at hm
      constructor
      · exact (mem_rowsFor.mp hm).1
      · intro x hx hximg
        have hx2 : x ∈ rowsFor img (rows.filter isGrypeRow) :=
          mem_rowsFor.mpr ⟨hx, by rw [hximg, (mem_rowsFor.mp hm).2]⟩
        rw [hR] at hx2
        have ht := maxTimeRow_time a as
        rcases List.mem_cons.mp hx2 with rfl | hx3
        · exact hsel ▸ ht.1
        · exact hsel ▸ ht.2 x hx3
  · intro img
    simp only [latestScans]
    have hc := countP_pick (rows.filter isGrypeRow)
      (distinctImages (rows.filter isGrypeRow)) img
      (nodup_distinctImages _)
      (fun a ha => (mem_distinctImages _ a).mp ha)
    rw [hc]
    by_cases hI : img ∈ distinctImages (rows.filter isGrypeRow)
    · rw [if_pos hI, if_pos ((mem_distinctImages _ img).mp hI)]
    · rw [if_neg hI, if_neg (fun hh => hI ((mem_distinctImages _ img).mpr hh))]

/-- Witness for C7: the per-image count conjunct applied to the concrete
four-row history at image X. -/
theorem c7_witness :
    (latestScans c7Rows).countP (fun r => r.image == "X")
      = if "X" ∈ (c7Rows.filter isGrypeRow).map (fun r => r.image) then 1 else 0 :=
  (c7_latest_selector.1 c7Rows).2 "X"

/-- The top-level member names a grype JSON document can carry (the grype
document schema: `matches`, `source`, `distro`, `descriptor`,
`ignoredMatches`), ASCII-lower-cased. -/
def grypeTopLevelKeysLower : List String :=
  ["matches", "source", "distro", "descriptor", "ignoredmatches"]

theorem lookupKey_none (kvs : List (String × Json)) (t : String)
    (h : ∀ p ∈ kvs, p.1 ≠ t) : lookupKey kvs t = none := by
  induction kvs with
  | nil => rfl
  | cons kv rest ih =>
    obtain ⟨k, v⟩ := kv
    rw [lookupKey]
    rw [if_neg (h (k, v) (List.mem_cons_self _ _))]
    exact ih (fun p hp => h p (List.mem_cons_of_mem _ hp))

theorem lookupKeyCI_none (kvs : List (String × Json)) (t : String)
    (h : ∀ p ∈ kvs, asciiLower p.1 ≠ asciiLower t) : lookupKeyCI kvs t = none := by
  induction kvs with
  | nil => rfl
  | cons kv rest ih =>
    obtain ⟨k, v⟩ := kv
    rw [lookupKeyCI]
    rw [if_neg (h (k, v) (List.mem_cons_self _ _))]
    exact ih (fun p hp => h p (List.mem_cons_of_mem _ hp))

theorem lookupCI_none (kvs : List (String × Json)) (t : String)
    (h : ∀ p ∈ kvs, asciiLower p.1 ≠ asciiLower t) :
    Json.lookupCI (.obj kvs) t = none := by
  have h1 : lookupKey kvs t = none :=
    lookupKey_none kvs t (fun p hp heq => h p hp (by rw [heq]))
  simp only [Json.lookupCI, h1]
  exact lookupKeyCI_none kvs t h

theorem scalar_lookup_none (kvs : List (String × Json)) (t : String)
    (hk : ∀ k ∈ (Json.obj kvs).topKeys, asciiLower k ∈ grypeTopLevelKeysLower)
    (ht : asciiLower t ∉ grypeTopLevelKeysLower) :
    Json.lookupCI (.obj kvs) t = none := by
  apply lookupCI_none
  intro p hp heq
  apply ht
  rw [← heq]
  refine hk p.1 ?_
  simp only [Json.topKeys, List.mem_map]
  exact ⟨p, hp, rfl⟩

/-- C10: re-parsing a stored row's non-empty raw-report column (a grype
document, whose top-level members are only `matches`, `source`, `distro`,
`descriptor`, `ignoredMatches`) changes only the nested match list: the
scalar fields image, digest, time, created and the five severity counts all
keep the values read from storage, because no top-level member of a grype
document matches those fields' names. -/
theorem c10_reparse_frame (r r2 : ImageCveScan) (j : Json)
    (hk : ∀ k ∈ j.topKeys, asciiLower k ∈ grypeTopLevelKeysLower)
    (hok : unmarshalImageCveScan r j = .ok r2) :
    r2.image = r.image ∧ r2.digest = r.digest ∧ r2.time = r.time
    ∧ r2.created = r.created ∧ r2.low = r.low ∧ r2.med = r.med
    ∧ r2.high = r.high ∧ r2.crit = r.crit ∧ r2.negligible = r.negligible := by
  cases j with
  | null =>
    simp only [unmarshalImageCveScan, Except.ok.injEq] at hok
    subst hok
    exact ⟨rfl, rfl, rfl, rfl, rfl, rfl, rfl, rfl, rfl⟩
  | bool b => simp [unmarshalImageCveScan] at hok
  | num n => simp [unmarshalImageCveScan] at hok
  | str s => simp [unmarshalImageCveScan] at hok
  | arr l => simp [unmarshalImageCveScan] at hok
  | obj kvs =>
    have hGit := scalar_lookup_none kvs "GithubIssueId" hk (by decide)
    have hImage := scalar_lookup_none kvs "Image" hk (by decide)
    have hDigest := scalar_lookup_none kvs "Digest" hk (by decide)
    have hTime := scalar_lookup_none kvs "Time" hk (by decide)
    have hCreated := scalar_lookup_none kvs "Created" hk (by decide)
    have hLow := scalar_lookup_none kvs "Low" hk (by decide)
    have hMed := scalar_lookup_none kvs "Med" hk (by decide)
    have hHigh := scalar_lookup_none kvs "High" hk (by decide)
    have hCrit := scalar_lookup_none kvs "Crit" hk (by decide)
    have hNeg := scalar_lookup_none kvs "Negligible" hk (by decide)
    simp only [unmarshalImageCveScan, hGit, hImage, hDigest, hTime, hCreated,
      hLow, hMed, hHigh, hCrit, hNeg, decIntField, decStrField, exceptOkBind] at hok
    cases hml : decodeQMatchList r.matchList ((Json.obj kvs).lookupCI "matches") with
    | error e => rw [hml] at hok; simp at hok
    | ok ml =>
      rw [hml] at hok
      simp only [exceptOkBind, Except.ok.injEq] at hok
      subst hok
      exact ⟨rfl, rfl, rfl, rfl, rfl, rfl, rfl, rfl, rfl⟩

/-- A concrete grype document for the C10 witness. -/
def c10Json : Json :=
  .obj [("matches", .arr []), ("source", .obj []), ("distro", .null),
        ("descriptor", .obj []), ("ignoredMatches", .arr [])]

/-- A concrete stored row for the C10 witness. -/
def c10Row : ImageCveScan :=
  { image := "img", digest := "sha256:zzz", time := "t1", created := "t0",
    low := 1, med := 2, high := 3, crit := 4, negligible := 5,
    matchesString := some c10Json }

/-- Unwrap a successful row decode (used only to name the concrete result in
the C10 witness). -/
def okOrRow (x : Except Failure ImageCveScan) : ImageCveScan :=
  match x with
  | .ok p => p
  | .error _ => {}

/-- The re-parsed form of `c10Row`. -/
def c10Res : ImageCveScan := okOrRow (unmarshalImageCveScan c10Row c10Json)

/-- Witness for C10 at a concrete row and document. -/
theorem c10_witness :
    c10Res.image = c10Row.image ∧ c10Res.digest = c10Row.digest
    ∧ c10Res.time = c10Row.time ∧ c10Res.created = c10Row.created
    ∧ c10Res.low = c10Row.low ∧ c10Res.med = c10Row.med
    ∧ c10Res.high = c10Row.high ∧ c10Res.crit = c10Row.crit
    ∧ c10Res.negligible = c10Row.negligible :=
  c10_reparse_frame c10Row c10Res c10Json (by decide) rfl

theorem scanImageGrype_eq (image scanTime : String) (j : Json) (output : GrypeScanOutput)
    (p : ImageScanSummary × List String)
    (hdec : decodeGrypeScanOutput j = .ok output)
    (hsum : grypeOutputToSummary image scanTime output = .ok p) :
    scanImageGrype image scanTime j
      = .ok ({ p.1 with rawGrypeJSON := some j }, p.2) := by
  obtain ⟨p1, p2⟩ := p
  simp only [scanImageGrype, hdec, exceptOkBind, hsum]

theorem extractVulns_raw (s : ImageScanSummary) (r : GrypeReportData)
    (hraw : s.rawGrypeJSON = some r.toJson) :
    s.extractVulns = .ok (r.matchData.map (fun dd =>
      { scanId := s.id, vulnerability := dd.cveID, datasource := dd.dataSource,
        severity := dd.severity, name := dd.pkgName, installed := dd.pkgVersion,
        fixedIn := String.intercalate ", " dd.fixVersions, type := dd.pkgType })) := by
  simp only [ImageScanSummary.extractVulns, hraw, decodeGrypeScanOutput_toJson,
    exceptOkBind, GrypeReportData.toOutput, List.map_map]
  rfl

theorem reconstructMatches_report (r : GrypeReportData) :
    reconstructMatches (some r.toJson) = .ok (r.matchData.map MatchData.toQMatch) := by
  simp only [reconstructMatches, unmarshal_reportJson, exceptOkBind]

/-- C1 (amended): for every well-formed grype report whose first
repo-digest splits at `@`, the scan summary embeds the raw report, and the
vulnerability list the query path reconstructs from that embedded report is
identical to the write path's list by CVE ID, severity string and package
name/version/type; the fix version is not reconstructable by the query path
(see the counterexample), so it is excluded here. -/
theorem c1_vuln_roundtrip (image scanTime : String) (r : GrypeReportData)
    (d : String) (rest : List String) (x : String)
    (hd : r.repoDigests = d :: rest) (hx : (stringSplit d '@')[1]? = some x) :
    ∃ s ws,
      scanImageGrype image scanTime r.toJson = .ok (s, ws)
      ∧ (reconstructMatches s.rawGrypeJSON).map (fun l => l.map QMatch.key)
        = (s.extractVulns).map (fun l => l.map Vuln.key)
      ∧ (reconstructMatches s.rawGrypeJSON).map (fun l => l.map QMatch.key)
        = .ok (r.matchData.map (fun dd =>
            { cveID := dd.cveID, severity := dd.severity, pkgName := dd.pkgName,
              pkgVersion := dd.pkgVersion, pkgType := dd.pkgType })) := by
  have hrd : (GrypeReportData.toOutput r).source.target.repoDigests = d :: rest := by
    simpa [GrypeReportData.toOutput] using hd
  have hsum : ∃ p, grypeOutputToSummary image scanTime r.toOutput = .ok p := by
    rw [grypeOutputToSummary_eq, hrd]
    simp only [List.getElem?_cons_zero, hx]
    exact ⟨_, rfl⟩
  obtain ⟨p, hsum⟩ := hsum
  have hscan := scanImageGrype_eq image scanTime r.toJson r.toOutput p
    (decodeGrypeScanOutput_toJson r) hsum
  refine ⟨_, _, hscan, ?_, ?_⟩
  · have hraw : ({ p.1 with rawGrypeJSON := some r.toJson } : ImageScanSummary).rawGrypeJSON
        = some r.toJson := rfl
    rw [hraw, reconstructMatches_report, extractVulns_raw _ r hraw]
    simp only [Except.map, List.map_map]
    congr 1
  · have hraw : ({ p.1 with rawGrypeJSON := some r.toJson } : ImageScanSummary).rawGrypeJSON
        = some r.toJson := rfl
    rw [hraw, reconstructMatches_report]
    simp only [Except.map, List.map_map]
    congr 1

/-- A grype match with a non-empty fix version. -/
def c1Md1 : MatchData :=
  { cveID := "CVE-2023-1111", dataSource := "https://nvd.example/CVE-2023-1111",
    severity := "High", fixVersions := ["1.2.3"], pkgName := "libfoo",
    pkgVersion := "1.2.2", pkgType := "apk", locations := [("/usr/lib/foo", "sha256:l1")] }

/-- The same match with no fix version. -/
def c1Md2 : MatchData := { c1Md1 with fixVersions := [] }

/-- A grype report containing `c1Md1`. -/
def c1Rep1 : GrypeReportData :=
  { repoDigests := ["repo@sha256:abc"], scannerVersion := "0.60",
    dbChecksum := "sha256:db", matchData := [c1Md1] }

/-- The same report with the fix version removed. -/
def c1Rep2 : GrypeReportData := { c1Rep1 with matchData := [c1Md2] }

/-- The summary of a grype scan of `c1Rep1`. -/
def c1Scan1 : ImageScanSummary × List String :=
  okOr (scanImageGrype "img" "t" c1Rep1.toJson)

/-- The summary of a grype scan of `c1Rep2`. -/
def c1Scan2 : ImageScanSummary × List String :=
  okOr (scanImageGrype "img" "t" c1Rep2.toJson)

/-- C1 counterexample: two grype reports differing only in the fix version
yield summaries whose query-path reconstructions are the same value (the
testquery structures carry no fix-version member), while the write path's
vulnerability lists differ in their `FixedIn` column — so the reconstructed
list cannot be identical to the write-path list by fix-version. -/
theorem c1_counterexample :
    reconstructMatches c1Scan1.1.rawGrypeJSON = reconstructMatches c1Scan2.1.rawGrypeJSON
    ∧ (c1Scan1.1.extractVulns).map (fun vs => vs.map Vuln.fixedIn) = .ok ["1.2.3"]
    ∧ (c1Scan2.1.extractVulns).map (fun vs => vs.map Vuln.fixedIn) = .ok [""]
    ∧ ("1.2.3" : String) ≠ "" :=
  ⟨rfl, rfl, rfl, by decide⟩

/-- Witness for C1: the round-trip theorem applied to the concrete report
`c1Rep1`. -/
theorem c1_witness :
    ∃ s ws,
      scanImageGrype "img" "t" c1Rep1.toJson = .ok (s, ws)
      ∧ (reconstructMatches s.rawGrypeJSON).map (fun l => l.map QMatch.key)
        = (s.extractVulns).map (fun l => l.map Vuln.key)
      ∧ (reconstructMatches s.rawGrypeJSON).map (fun l => l.map QMatch.key)
        = .ok (c1Rep1.matchData.map (fun dd =>
            { cveID := dd.cveID, severity := dd.severity, pkgName := dd.pkgName,
              pkgVersion := dd.pkgVersion, pkgType := dd.pkgType })) :=
  c1_vuln_roundtrip "img" "t" c1Rep1 "repo@sha256:abc" [] "sha256:abc" rfl rfl
